import Mathlib

set_option maxRecDepth 100000

/-!
Verification of the SmartRecipe backend (`src/server.js`), an Express
service with three endpoints: `/api/analyze-image`, `/api/generate-recipe`
and `/api/find-recipe-video`.  The JavaScript handlers are shallowly
embedded below: string manipulation becomes Lean functions on `String`,
each handler becomes a pure function from its request data and the
outcome of the single inference-provider call (`Except` for throw vs.
return) to a record describing the HTTP response it sends, together with
bookkeeping flags (whether the provider was invoked, whether the staged
upload was deleted).
-/

namespace SmartRecipe

/-- Whitespace recognised by ECMAScript `String.prototype.trim`:
TAB, LF, VT, FF, CR, SP, NBSP, and the Unicode space separators,
line/paragraph separators and BOM. -/
def isJsWhitespace (c : Char) : Bool :=
  let n := c.toNat
  n == 9 || n == 10 || n == 11 || n == 12 || n == 13 || n == 32 ||
  n == 160 || n == 0x1680 || (0x2000 ≤ n && n ≤ 0x200A) ||
  n == 0x2028 || n == 0x2029 || n == 0x202F || n == 0x205F ||
  n == 0x3000 || n == 0xFEFF

/-- JavaScript `s.trim()`: drop leading and trailing whitespace. -/
def jsTrim (s : String) : String :=
  ⟨((s.data.dropWhile isJsWhitespace).reverse.dropWhile isJsWhitespace).reverse⟩

/-- Helper for `jsSplitComma`: accumulates the current token (reversed). -/
def splitCommaAux : List Char → List Char → List String
  | [], acc => [⟨acc.reverse⟩]
  | c :: cs, acc =>
    if c == ',' then ⟨acc.reverse⟩ :: splitCommaAux cs []
    else splitCommaAux cs (c :: acc)

/-- JavaScript `s.split(',')`: split at every comma; the empty string
yields `[""]`, and adjacent/trailing commas yield empty tokens. -/
def jsSplitComma (s : String) : List String :=
  splitCommaAux s.data []

/-- JavaScript `s.startsWith(p)`. -/
def charsHavePrefix : List Char → List Char → Bool
  | [], _ => true
  | _ :: _, [] => false
  | a :: as, b :: bs => a == b && charsHavePrefix as bs

/-- JavaScript `s.startsWith(p)` on strings. -/
def jsStartsWith (s p : String) : Bool :=
  charsHavePrefix p.data s.data

/-- Does `sub` occur contiguously in the character list? -/
def charsHaveInfix (sub : List Char) : List Char → Bool
  | [] => charsHavePrefix sub []
  | c :: cs => charsHavePrefix sub (c :: cs) || charsHaveInfix sub cs

/-- Does the string `sub` occur as a contiguous substring of `s`? -/
def strContains (s sub : String) : Bool :=
  charsHaveInfix sub.data s.data

/-- The ingredient parse of the `/api/analyze-image` handler
(`server.js` lines 99-102):
`text.split(',').map(item => item.trim()).filter(item => item.length > 0)`. -/
def parseIngredients (text : String) : List String :=
  ((jsSplitComma text).map jsTrim).filter (fun item => item.length > 0)

/-- The parse as the spec words it: split the text on commas, trim
whitespace from each token, discard empty tokens, preserve the
remaining order.  Stated independently of the code's
`.map(...).filter(...)` pipeline, to be compared with
`parseIngredients`. -/
def specParseIngredients (text : String) : List String :=
  (jsSplitComma text).filterMap fun tok =>
    let t := jsTrim tok
    if t = "" then none else some t

/-- Characters that JavaScript `encodeURIComponent` leaves unescaped:
`A-Z a-z 0-9 - _ . ! ~ * ( )` and the apostrophe (codepoint 39). -/
def isUnescapedURI (c : Char) : Bool :=
  let n := c.toNat
  (65 ≤ n && n ≤ 90) || (97 ≤ n && n ≤ 122) || (48 ≤ n && n ≤ 57) ||
  n == 45 || n == 95 || n == 46 || n == 33 || n == 126 || n == 42 ||
  n == 39 || n == 40 || n == 41

/-- UTF-8 encoding of a single character, as byte values. -/
def utf8Bytes (c : Char) : List Nat :=
  let n := c.toNat
  if n < 0x80 then [n]
  else if n < 0x800 then [0xC0 + n / 64, 0x80 + n % 64]
  else if n < 0x10000 then
    [0xE0 + n / 4096, 0x80 + (n / 64) % 64, 0x80 + n % 64]
  else
    [0xF0 + n / 262144, 0x80 + (n / 4096) % 64, 0x80 + (n / 64) % 64,
     0x80 + n % 64]

/-- Upper-case hexadecimal digit for a value below 16. -/
def hexDigit (n : Nat) : Char :=
  if n < 10 then Char.ofNat (48 + n) else Char.ofNat (55 + n)

/-- Percent-escape of one byte, e.g. byte 32 becomes `%20`. -/
def percentByte (b : Nat) : String :=
  ⟨[Char.ofNat 37, hexDigit (b / 16), hexDigit (b % 16)]⟩

/-- JavaScript `encodeURIComponent`: unescaped characters pass through,
every other character is replaced by the percent-escapes of its UTF-8
bytes. -/
def encodeURIComponent (s : String) : String :=
  String.join (s.data.map fun c =>
    if isUnescapedURI c then String.singleton c
    else String.join ((utf8Bytes c).map percentByte))

/-- JavaScript truthiness of an optional string field of `req.body`
(or of `req.file`): absent (`undefined`) and the empty string are
falsy. -/
def jsTruthy : Option String → Bool
  | none => false
  | some s => !(s == "")

/-! ## `/api/analyze-image` (server.js lines 28-48 and 69-116) -/

/-- Metadata of an incoming multipart file, as multer sees it. -/
structure FileMeta where
  mimetype : String
  size : Nat
deriving DecidableEq, Repr

/-- Outcome of the `upload.single('image')` middleware for a request. -/
inductive MulterResult where
  /-- The file passed the filter and the size limit and was staged. -/
  | staged (f : FileMeta)
  /-- The request carried no `image` file; the handler runs with
  `req.file` undefined. -/
  | noFile
  /-- The middleware rejected the file and dispatched an error instead
  of invoking the handler. -/
  | rejected (msg : String)
deriving DecidableEq, Repr

/-- The multer configuration of `server.js` lines 38-48: `fileFilter`
rejects any file whose mimetype does not start with `image/` (message
`Not an image! Please upload an image file.`), and
`limits.fileSize = 10 * 1024 * 1024` rejects larger files
(multer's `LIMIT_FILE_SIZE` error). -/
def multerSingleImage (file : Option FileMeta) : MulterResult :=
  match file with
  | none => .noFile
  | some f =>
    if !(jsStartsWith f.mimetype "image/") then
      .rejected "Not an image! Please upload an image file."
    else if f.size > 10 * 1024 * 1024 then
      .rejected "LIMIT_FILE_SIZE"
    else .staged f

/-- The JSON response of the analyze-image route, with bookkeeping:
`providerCalled` records whether `model.generateContent` ran, and
`fileDeleted` whether `fs.unlinkSync(req.file.path)` ran before the
response was sent. -/
structure AnalyzeOutcome where
  status : Nat
  ingredients : Option (List String)
  error : Option String
  details : Option String
  providerCalled : Bool
  fileDeleted : Bool
deriving DecidableEq, Repr

/-- The `/api/analyze-image` handler body (server.js lines 69-116).
`provider` is the outcome of the `generateContent` call: `Except.ok`
is the response text, `Except.error` a thrown error's message.  With no
file, it returns `400` at once.  On provider success it parses the
text, unlinks the staged file and answers `200`.  On a thrown error the
`catch` block (lines 109-115) answers `500` with the error's message as
`details`; it contains no `unlinkSync`/`removeFile` call, so the staged
file is not deleted on that path. -/
def analyzeImageBody (file : Option FileMeta)
    (provider : Except String String) : AnalyzeOutcome :=
  match file with
  | none =>
    { status := 400, ingredients := none,
      error := some "No image file provided", details := none,
      providerCalled := false, fileDeleted := false }
  | some _ =>
    match provider with
    | .ok text =>
      { status := 200, ingredients := some (parseIngredients text),
        error := none, details := none,
        providerCalled := true, fileDeleted := true }
    | .error msg =>
      { status := 500, ingredients := none,
        error := some "Failed to analyze image", details := some msg,
        providerCalled := true, fileDeleted := false }

/-- Modelled from the spec: the HTTP framework's dispatch of an
upload-middleware error.  `server.js` registers no error-handling
middleware, so the conversion of a multer rejection into an HTTP
response happens inside the Express framework, outside `src/`; the spec
classifies these rejections as validation failures answered with a
client-error `400` and no provider call. -/
def multerErrorResponse (msg : String) : AnalyzeOutcome :=
  { status := 400, ingredients := none, error := some msg,
    details := none, providerCalled := false, fileDeleted := false }

/-- The full analyze-image route: the multer middleware runs first; the
handler body runs only when the middleware accepted the request. -/
def analyzeImageRoute (file : Option FileMeta)
    (provider : Except String String) : AnalyzeOutcome :=
  match multerSingleImage file with
  | .rejected msg => multerErrorResponse msg
  | .noFile => analyzeImageBody none provider
  | .staged f => analyzeImageBody (some f) provider

/-! ## `/api/generate-recipe` (server.js lines 119-164) -/

/-- JSON body of a `/api/generate-recipe` request; absent fields are
`none`. -/
structure RecipeRequest where
  ingredients : Option String
  cuisine : Option String
  dietaryRestrictions : Option String
deriving DecidableEq, Repr

/-- The cuisine interpolation of the recipe prompt (line 133):
`cuisine && cuisine !== 'Any' ? `The cuisine should be ${cuisine}.` : ''`. -/
def cuisineClause (cuisine : Option String) : String :=
  match cuisine with
  | none => ""
  | some c => if c ≠ "" ∧ c ≠ "Any" then "The cuisine should be " ++ c ++ "." else ""

/-- The dietary interpolation of the recipe prompt (line 134):
`dietaryRestrictions && dietaryRestrictions !== 'None' ? `Please ensure the recipe is ${dietaryRestrictions}.` : ''`. -/
def dietaryClause (dietaryRestrictions : Option String) : String :=
  match dietaryRestrictions with
  | none => ""
  | some d =>
    if d ≠ "" ∧ d ≠ "None" then "Please ensure the recipe is " ++ d ++ "." else ""

/-- The recipe-generation prompt template literal (server.js lines
132-146), with the template's own newlines and indentation. -/
def buildRecipePrompt (ingredients : String)
    (cuisine dietaryRestrictions : Option String) : String :=
  "Create a detailed recipe using these ingredients: " ++ ingredients ++
  ".\n      " ++ cuisineClause cuisine ++
  "\n      " ++ dietaryClause dietaryRestrictions ++
  "\n      \n      Format the recipe with these sections:\n      - Recipe Name\n      - Ingredients (with measurements)\n      - Instructions (step-by-step)\n      - Cooking Time\n      - Servings\n      - Dietary Information\n      - Tips and Variations\n      - Nutritional Information (approximate)\n      \n      Be creative but practical, and make sure all the provided ingredients are used."

/-- The JSON response of `/api/generate-recipe`, with a flag recording
whether `model.generateContent` ran. -/
structure RecipeOutcome where
  status : Nat
  recipe : Option String
  error : Option String
  details : Option String
  providerCalled : Bool
deriving DecidableEq, Repr

/-- The `/api/generate-recipe` handler (server.js lines 119-164):
falsy `ingredients` answers `400` before any provider call; otherwise
the provider is called once with the built prompt, `200 {recipe}` on
success, and the `catch` block (lines 157-163) answers
`500 {error: Failed to generate recipe, details: error.message}`. -/
def generateRecipeBody (req : RecipeRequest)
    (provider : Except String String) : RecipeOutcome :=
  if !(jsTruthy req.ingredients) then
    { status := 400, recipe := none,
      error := some "Ingredients are required", details := none,
      providerCalled := false }
  else
    match provider with
    | .ok text =>
      { status := 200, recipe := some text, error := none,
        details := none, providerCalled := true }
    | .error msg =>
      { status := 500, recipe := none,
        error := some "Failed to generate recipe", details := some msg,
        providerCalled := true }

/-! ## `/api/find-recipe-video` (server.js lines 167-218) -/

/-- JSON body of a `/api/find-recipe-video` request. -/
structure VideoRequest where
  recipeName : Option String
  ingredients : Option String
  cuisine : Option String
deriving DecidableEq, Repr

/-- The JSON response of `/api/find-recipe-video`. -/
structure VideoOutcome where
  status : Nat
  searchQuery : Option String
  youtubeEmbedUrl : Option String
  youtubeFirstResultUrl : Option String
  youtubeSearchUrl : Option String
  error : Option String
  details : Option String
  providerCalled : Bool
deriving DecidableEq, Repr

/-- The `res.json` object of the success path (server.js lines
202-210): the provider's text, trimmed, is `searchQuery`, and three
URLs are built from it by `encodeURIComponent` substitution into fixed
templates. -/
def videoSuccessJson (searchQuery : String) : VideoOutcome :=
  { status := 200, searchQuery := some searchQuery,
    youtubeEmbedUrl :=
      some ("https://www.youtube-nocookie.com/embed?search=" ++
        encodeURIComponent searchQuery),
    youtubeFirstResultUrl :=
      some ("https://www.youtube-nocookie.com/embed?search=" ++
        encodeURIComponent searchQuery),
    youtubeSearchUrl :=
      some ("https://www.youtube.com/results?search_query=" ++
        encodeURIComponent searchQuery),
    error := none, details := none, providerCalled := true }

/-- The `/api/find-recipe-video` handler (server.js lines 167-218):
falsy `recipeName` answers `400` before any provider call; otherwise
the provider is called once, `searchQuery` is the trimmed response
text, and the `catch` block answers
`500 {error: Failed to find recipe video, details: error.message}`. -/
def findRecipeVideoBody (req : VideoRequest)
    (provider : Except String String) : VideoOutcome :=
  if !(jsTruthy req.recipeName) then
    { status := 400, searchQuery := none, youtubeEmbedUrl := none,
      youtubeFirstResultUrl := none, youtubeSearchUrl := none,
      error := some "Recipe name is required", details := none,
      providerCalled := false }
  else
    match provider with
    | .ok text => videoSuccessJson (jsTrim text)
    | .error msg =>
      { status := 500, searchQuery := none, youtubeEmbedUrl := none,
        youtubeFirstResultUrl := none, youtubeSearchUrl := none,
        error := some "Failed to find recipe video", details := some msg,
        providerCalled := true }

/-! ## Helper lemmas -/

/-- A string has positive length exactly when it is nonempty. -/
theorem length_pos_iff_ne_empty (s : String) : 0 < s.length ↔ s ≠ "" := by
  cases s with
  | mk data =>
    cases data with
    | nil => decide
    | cons c cs =>
      constructor
      · intro _ heq
        exact List.noConfusion (congrArg String.data heq)
      · intro _
        exact Nat.succ_pos _

/-- The code's `.map(trim).filter(length > 0)` pipeline agrees with the
spec's "trim each token, discard empty tokens" description, token list
by token list. -/
theorem filter_length_eq_filterMap (l : List String) :
    (l.map jsTrim).filter (fun item => item.length > 0) =
      l.filterMap (fun tok =>
        if jsTrim tok = "" then none else some (jsTrim tok)) := by
  induction l with
  | nil => rfl
  | cons a l ih =>
    by_cases h : jsTrim a = ""
    · simp [h, ih]
    · simp [h, (length_pos_iff_ne_empty (jsTrim a)).2 h, ih]

/-! ## Claim theorems -/

/-- C1: for every provider response text, the ingredient parser of the
analyze-image handler returns the list obtained by splitting the text
on commas, trimming whitespace from each token, discarding empty
tokens and preserving the remaining order; in particular, on
`"a, b ,c,"` it returns `["a", "b", "c"]`, and the handler's `200`
response carries exactly this list. -/
theorem analyze_parse_matches_spec :
    (∀ text : String, parseIngredients text = specParseIngredients text) ∧
    parseIngredients "a, b ,c," = ["a", "b", "c"] ∧
    ∀ (f : FileMeta) (text : String),
      (analyzeImageBody (some f) (Except.ok text)).ingredients =
        some (parseIngredients text) :=
  ⟨fun text => filter_length_eq_filterMap (jsSplitComma text),
   by decide, fun _ _ => rfl⟩

/-- C2 counterexample: a staged image whose provider call throws is NOT
deleted — the catch block of the analyze-image handler (server.js lines
109-115) sends the `500` response without any `unlinkSync` call, so the
claim that the staged file is deleted on every outcome fails. -/
theorem analyze_cleanup_counterexample :
    ¬ ((analyzeImageRoute (some ⟨"image/png", 1234⟩)
        (Except.error "network error")).fileDeleted = true) := by
  decide

/-- C2 amended: on provider success the staged file is deleted before
the `200` response is sent, but when the provider call throws, the
`500` response is sent without deleting the staged file. -/
theorem analyze_cleanup_amended :
    ∀ (f : FileMeta) (text msg : String),
      (analyzeImageBody (some f) (Except.ok text)).fileDeleted = true ∧
      (analyzeImageBody (some f) (Except.error msg)).fileDeleted = false :=
  fun _ _ _ => ⟨rfl, rfl⟩

/-- C3: every upload rejected by the MIME-type check (`mimetype` not
starting with `image/`) or the size check (more than `10 * 1024 * 1024`
bytes) gets a `400` validation response, and the inference provider is
never invoked for it. -/
theorem rejected_upload_validation :
    ∀ (f : FileMeta) (provider : Except String String),
      (jsStartsWith f.mimetype "image/" = false ∨ f.size > 10 * 1024 * 1024) →
      (analyzeImageRoute (some f) provider).status = 400 ∧
      (analyzeImageRoute (some f) provider).providerCalled = false := by
  intro f provider h
  rcases h with h | h
  · simp [analyzeImageRoute, multerSingleImage, h, multerErrorResponse]
  · by_cases hm : jsStartsWith f.mimetype "image/"
    · simp [analyzeImageRoute, multerSingleImage, hm, h, multerErrorResponse]
    · simp [analyzeImageRoute, multerSingleImage, hm, multerErrorResponse]

/-- C3 witness: a `text/plain` upload is answered `400` and the
provider is not called. -/
theorem rejected_upload_validation_witness :
    (analyzeImageRoute (some ⟨"text/plain", 5⟩) (Except.ok "x")).status = 400 ∧
    (analyzeImageRoute (some ⟨"text/plain", 5⟩) (Except.ok "x")).providerCalled = false :=
  rejected_upload_validation ⟨"text/plain", 5⟩ (Except.ok "x") (Or.inl (by decide))

/-- C4: with `cuisine = "Any"` and `dietaryRestrictions = "None"`, both
interpolated clauses are the empty string, the prompt equals the prompt
built with both fields absent, and (for a representative ingredient
list) the prompt contains neither `The cuisine should be` nor
`Please ensure the recipe is`. -/
theorem sentinel_suppression :
    ∀ ingredients : String,
      cuisineClause (some "Any") = "" ∧
      dietaryClause (some "None") = "" ∧
      buildRecipePrompt ingredients (some "Any") (some "None") =
        buildRecipePrompt ingredients none none ∧
      strContains (buildRecipePrompt "chicken, rice, beans"
        (some "Any") (some "None")) "The cuisine should be" = false ∧
      strContains (buildRecipePrompt "chicken, rice, beans"
        (some "Any") (some "None")) "Please ensure the recipe is" = false := by
  intro i
  refine ⟨by decide, by decide, ?_, by decide, by decide⟩
  unfold buildRecipePrompt
  rw [(by decide : cuisineClause (some "Any") = ""),
      (by decide : dietaryClause (some "None") = "")]
  rfl

/-- C5: a generate-recipe request without the `ingredients` field is
answered `400 {error: Ingredients are required}` and the provider is
not called, whatever it would have returned. -/
theorem missing_ingredients_validation :
    ∀ (c d : Option String) (provider : Except String String),
      generateRecipeBody ⟨none, c, d⟩ provider =
        { status := 400, recipe := none,
          error := some "Ingredients are required", details := none,
          providerCalled := false } :=
  fun _ _ _ => rfl

/-- C6: when the provider call throws during recipe synthesis (with the
thrown error carrying a message), the response is `500` with
`error = "Failed to generate recipe"` and `details` equal to the
provider's message, hence non-empty. -/
theorem recipe_provider_failure :
    ∀ (req : RecipeRequest) (msg : String),
      jsTruthy req.ingredients = true → msg ≠ "" →
      (generateRecipeBody req (Except.error msg)).status = 500 ∧
      (generateRecipeBody req (Except.error msg)).error =
        some "Failed to generate recipe" ∧
      (generateRecipeBody req (Except.error msg)).details = some msg ∧
      (generateRecipeBody req (Except.error msg)).details ≠ some "" := by
  intro req msg ht hm
  simp [generateRecipeBody, ht, hm]

/-- C6 witness: ingredients `"eggs, flour"`, provider throws
`network error`. -/
theorem recipe_provider_failure_witness :
    (generateRecipeBody ⟨some "eggs, flour", none, none⟩
      (Except.error "network error")).status = 500 ∧
    (generateRecipeBody ⟨some "eggs, flour", none, none⟩
      (Except.error "network error")).error = some "Failed to generate recipe" ∧
    (generateRecipeBody ⟨some "eggs, flour", none, none⟩
      (Except.error "network error")).details = some "network error" ∧
    (generateRecipeBody ⟨some "eggs, flour", none, none⟩
      (Except.error "network error")).details ≠ some "" :=
  recipe_provider_failure ⟨some "eggs, flour", none, none⟩ "network error"
    (by decide) (by decide)

/-- C7: the URLs of a successful find-recipe-video response are the
fixed templates applied to the URL-encoded `searchQuery`; in
particular, for `chicken tikka masala recipe tutorial` the
`youtubeSearchUrl` is the exact percent-encoded results URL. -/
theorem video_urls_from_templates :
    (∀ sq : String,
      (videoSuccessJson sq).youtubeSearchUrl =
        some ("https://www.youtube.com/results?search_query=" ++
          encodeURIComponent sq) ∧
      (videoSuccessJson sq).youtubeEmbedUrl =
        some ("https://www.youtube-nocookie.com/embed?search=" ++
          encodeURIComponent sq) ∧
      (videoSuccessJson sq).youtubeFirstResultUrl =
        some ("https://www.youtube-nocookie.com/embed?search=" ++
          encodeURIComponent sq)) ∧
    (videoSuccessJson "chicken tikka masala recipe tutorial").youtubeSearchUrl =
      some "https://www.youtube.com/results?search_query=chicken%20tikka%20masala%20recipe%20tutorial" :=
  ⟨fun _ => ⟨rfl, rfl, rfl⟩, by decide⟩

/-- C8: a find-recipe-video request without `recipeName` is answered
`400 {error: Recipe name is required}` with no provider call; on
success the returned `searchQuery` is the provider's raw response text
with leading and trailing whitespace trimmed. -/
theorem video_validation_and_trim :
    ∀ (i c : Option String) (provider : Except String String)
      (name text : String),
      ((findRecipeVideoBody ⟨none, i, c⟩ provider).status = 400 ∧
       (findRecipeVideoBody ⟨none, i, c⟩ provider).error =
         some "Recipe name is required" ∧
       (findRecipeVideoBody ⟨none, i, c⟩ provider).providerCalled = false) ∧
      (jsTruthy (some name) = true →
        (findRecipeVideoBody ⟨some name, i, c⟩ (Except.ok text)).searchQuery =
          some (jsTrim text)) := by
  intro i c provider name text
  refine ⟨⟨rfl, rfl, rfl⟩, fun h => ?_⟩
  simp [findRecipeVideoBody, h, videoSuccessJson]

/-- C8 witness: missing name gives `400`; for `Pasta Carbonara` with a
padded provider response the query is the trimmed text. -/
theorem video_validation_and_trim_witness :
    (findRecipeVideoBody ⟨none, none, none⟩ (Except.ok "x")).status = 400 ∧
    (findRecipeVideoBody ⟨some "Pasta Carbonara", none, none⟩
      (Except.ok " pasta carbonara recipe tutorial \n")).searchQuery =
      some "pasta carbonara recipe tutorial" := by
  refine ⟨(video_validation_and_trim none none (Except.ok "x")
    "Pasta Carbonara" "x").1.1, ?_⟩
  rw [(video_validation_and_trim none none (Except.ok "x") "Pasta Carbonara"
    " pasta carbonara recipe tutorial \n").2 (by decide)]
  decide

/-- C9: the ingredient parse step is total — every provider response
string yields a result — and the empty string yields the empty
ingredient list. -/
theorem parse_total_and_empty :
    (∀ text : String, ∃ l : List String, parseIngredients text = l) ∧
    parseIngredients "" = [] :=
  ⟨fun _ => ⟨_, rfl⟩, by decide⟩

/-- C10: for every `searchQuery`, the `youtubeEmbedUrl` and the
`youtubeFirstResultUrl` of the success response are the same string,
both built from the `youtube-nocookie.com/embed?search=` template
applied to the encoded query. -/
theorem embed_equals_first_result :
    ∀ sq : String,
      (videoSuccessJson sq).youtubeEmbedUrl =
        (videoSuccessJson sq).youtubeFirstResultUrl ∧
      (videoSuccessJson sq).youtubeEmbedUrl =
        some ("https://www.youtube-nocookie.com/embed?search=" ++
          encodeURIComponent sq) :=
  fun _ => ⟨rfl, rfl⟩

end SmartRecipe
